import Mathlib

/-!
# Backup, recovery and session persistence of micro buffers

A shallow embedding of `internal/buffer/backup.go` and
`internal/buffer/serialize.go`.

The Go methods mutate a `*Buffer` and the filesystem.  Here every method is a
pure function from the buffer, the filesystem and the outcomes of the calls the
code cannot control (a write, rename or removal that fails, the answer typed at
the prompt) to the buffer and filesystem afterwards and the returned values.

Go `error` values are modelled by their message: `Option String` is an `error`
that may be `nil`.
-/

/-! ## The filesystem -/

/-- Contents of a file: a sequence of bytes. -/
abbrev Bytes := List Nat

/-- A regular file: its bytes, and whether this process may open it for reading. -/
structure File where
  data : Bytes
  readable : Bool
deriving DecidableEq, Repr

/-- What a path names: a regular file or a directory. -/
inductive Node where
  | file (f : File)
  | dir
deriving DecidableEq, Repr

/-- A filesystem state: what each path names, if anything. -/
abbrev FS := String → Option Node

/-- The filesystem with the entry at `p` replaced by `n`. -/
def FS.set (fs : FS) (p : String) (n : Option Node) : FS :=
  fun q => if q = p then n else fs q

/-- The regular file at `p`, if `p` names one. -/
def FS.fileAt (fs : FS) (p : String) : Option File :=
  match fs p with
  | some (Node.file f) => some f
  | _ => none

/-- Read permission a file written at `p` ends up with: an existing regular
file keeps its own, a newly created one is readable by its creator. -/
def FS.readableAt (fs : FS) (p : String) : Bool :=
  match fs p with
  | some (Node.file f) => f.readable
  | _ => true

/-- The call `os.Stat`: `none` stands for the error `fs.ErrNotExist`, `some n` for a
successful stat of the entry `n`. -/
def os_Stat (fs : FS) (p : String) : Option Node := fs p

/-- The call `os.Mkdir`, whose result the callers discard: creates the directory when
nothing is at `p` and the call does not fail (`fails`, for instance a missing
parent); otherwise changes nothing. -/
def os_Mkdir (fs : FS) (p : String) (fails : Bool) : FS :=
  if fails then fs
  else match fs p with
    | none => fs.set p (some Node.dir)
    | some _ => fs

/-- The call `os.Remove`, whose result the callers discard.  With `fails` the
call fails (the directory may not be modified, the file is held open on a
system that forbids unlinking it, the directory at `p` is not empty) and the
filesystem is as before.  Otherwise the entry at `p`, a file or a directory, is
removed; a missing path is the error the callers ignore. -/
def os_Remove (fs : FS) (p : String) (fails : Bool) : FS :=
  if fails then fs
  else match fs p with
    | some _ => fs.set p none
    | none => fs

/-- The call `os.Rename`: atomic.  With `fault = some e` the call fails with `e` and the
filesystem is as before; it also fails when `old` names nothing.  Otherwise the
entry moves from `old` to `new`, replacing what was there. -/
def os_Rename (fs : FS) (old new : String) (fault : Option String) : FS × Option String :=
  match fault with
  | some e => (fs, some e)
  | none =>
    match fs old with
    | none => (fs, some ("rename " ++ old ++ " " ++ new ++ ": no such file or directory"))
    | some n => ((fs.set old none).set new (some n), none)

/-- What a reader of an open handle obtains: the bytes, or a read error. -/
abbrev Reader := Except String Bytes

/-- The call `os.Open`: fails on a missing path and on a file that may not be read; a
directory opens, and reading from it fails. -/
def os_Open (fs : FS) (p : String) : Except String Reader :=
  match fs p with
  | none => Except.error ("open " ++ p ++ ": no such file or directory")
  | some Node.dir => Except.ok (Except.error ("read " ++ p ++ ": is a directory"))
  | some (Node.file f) =>
    if f.readable then Except.ok (Except.ok f.data)
    else Except.error ("open " ++ p ++ ": permission denied")

/-! ## The buffer -/

/-- Modelled from the spec: the buffer kind, "a discriminator distinguishing
ordinary file buffer from other kinds (e.g., scratch/log)"; its declaration is
not among the sources. -/
inductive BufType where
  | BTDefault
  | BTHelp
  | BTLog
  | BTScratch
  | BTRaw
  | BTInfo
  | BTStdout
deriving DecidableEq, Repr

/-- Line-ending format passed to `NewLineArray`. -/
inductive FileFormat where
  | FFAuto
  | FFUnix
  | FFDos
deriving DecidableEq, Repr

/-- A position in the buffer. -/
structure Loc where
  X : Int
  Y : Int
deriving DecidableEq, Repr

/-- A cursor; only its location is used here. -/
structure Cursor where
  Loc : Loc
  Num : Nat
deriving DecidableEq, Repr

/-- A `time.Time`; Go's `==` on it compares the three fields. -/
structure Time where
  wall : Nat
  ext : Int
  loc : Nat
deriving DecidableEq, Repr

/-- Modelled from the spec: the settings store, "assumed to expose typed
lookups": booleans `backup`, `permbackup`, `savecursor`, `saveundo` and the
string `backupdir`. -/
structure Settings where
  backup : Bool
  permbackup : Bool
  backupdir : String
  savecursor : Bool
  saveundo : Bool
deriving DecidableEq, Repr

/-- The in-memory text of a buffer. -/
structure LineArray where
  lines : List Bytes
deriving DecidableEq, Repr

/-- Modelled from the spec: the edit history, "an opaque serializable blob",
with the two references `Unserialize` re-attaches: the live cursor set and the
underlying content (`buf`, the address of the shared buffer). -/
structure EventHandler where
  buf : Nat
  cursors : List Cursor
  history : Bytes
deriving DecidableEq, Repr

/-- The fields of `Buffer` the two files read or write.  `addr` is the identity
of the `*Buffer` (what the request channel holds); `SharedBuffer` the address
of its shared part; `BufType` is the Go field `Type`, a reserved word here. -/
structure Buffer where
  addr : Nat
  SharedBuffer : Nat
  Path : String
  AbsPath : String
  BufType : BufType
  ModTime : Time
  Settings : Settings
  LineArray : LineArray
  isModified : Bool
  EventHandler : EventHandler
  cursors : List Cursor
  StartCursor : Loc
  requestedBackup : Bool
  forceKeepBackup : Bool
deriving DecidableEq, Repr

/-- The SerializedBuffer holds the types that get serialized when a buffer is
saved. -/
structure SerializedBuffer where
  EventHandler : EventHandler
  Cursor : Loc
  ModTime : Time
deriving DecidableEq, Repr

/-- Helpers of the repository and its libraries that the two files call and
that are not among the sources; the development holds for every choice of
them.

* `ConfigDir`: `config.ConfigDir`;
* `Join`: `filepath.Join` of two elements;
* `ReplaceHome`: `util.ReplaceHome`, returning the path and the error;
* `DetermineEscapePath`: `util.DetermineEscapePath`, the deterministic mapping
  from a directory and an absolute path to a file name;
* `GetActiveCursor`: `Buffer.GetActiveCursor`;
* `content`: the bytes `overwriteFile` writes for a buffer;
* `NewLineArray`: `NewLineArray(size, format, reader)`;
* `gobEncode`, `gobDecode`: the `encoding/gob` encoder and decoder at type
  `SerializedBuffer`. -/
structure Env where
  ConfigDir : String
  Join : String → String → String
  ReplaceHome : String → String × Option String
  DetermineEscapePath : String → String → String
  GetActiveCursor : Buffer → Cursor
  content : Buffer → Bytes
  NewLineArray : Nat → FileFormat → Reader → LineArray
  gobEncode : SerializedBuffer → Except String Bytes
  gobDecode : Reader → Except String SerializedBuffer

/-- Modelled from the spec: `util.AppendBackupSuffix`, the temporary name
"derived by appending a fixed suffix to the target name". -/
def backupSuffix : String := ".micro-backup"

/-- Modelled from the spec: `util.AppendBackupSuffix`, which appends the fixed
suffix to the target name. -/
def AppendBackupSuffix (path : String) : String := path ++ backupSuffix

/-- How a write of a whole file ends: it succeeds, or it fails with an error
and leaves the target either as it was (`torn = none`, the file could not be
opened) or as a regular file holding some bytes `d` (`torn = some d`, a
truncated or incomplete write). -/
inductive WriteOutcome where
  | ok
  | failed (err : String) (torn : Option Bytes)
deriving DecidableEq, Repr

/-- Modelled from the spec: `Buffer.overwriteFile`, which "writes the buffer's
full content" to `name` and is not among the sources.  Returns the filesystem
afterwards and the error (the byte count it also returns is discarded by the
caller). -/
def Buffer.overwriteFile (env : Env) (b : Buffer) (fs : FS) (name : String)
    (w : WriteOutcome) : FS × Option String :=
  match w with
  | WriteOutcome.ok =>
    (fs.set name (some (Node.file ⟨env.content b, fs.readableAt name⟩)), none)
  | WriteOutcome.failed e none => (fs, some e)
  | WriteOutcome.failed e (some d) =>
    (fs.set name (some (Node.file ⟨d, fs.readableAt name⟩)), some e)

/-- Modelled from the spec: `util.SafeWrite`, the "all-or-nothing write": on
success `path` names a fresh file with exactly `bytes`, readable by the process
that wrote it; on failure (`fault = some e`) the file at `path` is as before. -/
def SafeWrite (fs : FS) (path : String) (bytes : Bytes) (_rename : Bool)
    (fault : Option String) : FS × Option String :=
  match fault with
  | some e => (fs, some e)
  | none => (fs.set path (some (Node.file ⟨bytes, true⟩)), none)

/-! ## backup.go -/

/-- Capacity of `backupRequestChan` (`make(chan *Buffer, 10)`). -/
def backupRequestChanCap : Nat := 10

/-- The non-blocking send `select { case ch <- x: default: }` on a buffered
channel of capacity `cap` holding `q` (head first): the value is appended when
there is room, and dropped otherwise. -/
def trySend (q : List Nat) (cap : Nat) (x : Nat) : List Nat :=
  if q.length < cap then q ++ [x] else q

/-- The method `RequestBackup`: the buffer and the channel contents afterwards. -/
def Buffer.RequestBackup (b : Buffer) (q : List Nat) : Buffer × List Nat :=
  if !b.requestedBackup then
    let q1 := trySend q backupRequestChanCap b.addr
    ({ b with requestedBackup := true }, q1)
  else
    (b, q)

/-- The method `backupDir`: the directory of the `backupdir` setting after
`util.ReplaceHome`, or `ConfigDir/backups` when that is empty or fails. -/
def Buffer.backupDir (env : Env) (b : Buffer) : String :=
  let r := env.ReplaceHome b.Settings.backupdir
  if r.1 = "" || r.2.isSome then env.Join env.ConfigDir "backups" else r.1

/-- The method `keepBackup`: the per-buffer override or the `permbackup` setting. -/
def Buffer.keepBackup (b : Buffer) : Bool :=
  b.forceKeepBackup || b.Settings.permbackup

/-- The name of the buffer's backup file,
`util.DetermineEscapePath(b.backupDir(), b.AbsPath)`. -/
def Buffer.backupName (env : Env) (b : Buffer) : String :=
  env.DetermineEscapePath (b.backupDir env) b.AbsPath

/-- Outcomes, during one call of `Backup`, of the filesystem calls that may
fail: the `os.Mkdir` of the backup directory, the `overwriteFile`, the
`os.Rename`, and the `os.Remove` of the temporary file. -/
structure BackupFaults where
  mkdirFails : Bool
  write : WriteOutcome
  rename : Option String
  removeFails : Bool
deriving DecidableEq, Repr

/-- Backup saves the current buffer to the backups directory.  Returns the
buffer and the filesystem afterwards, and the error. -/
def Buffer.Backup (env : Env) (b : Buffer) (fs : FS) (o : BackupFaults) :
    Buffer × FS × Option String :=
  if !b.Settings.backup || b.Path = "" || b.BufType != BufType.BTDefault then
    (b, fs, none)
  else
    let backupdir := b.backupDir env
    let fs1 := if (os_Stat fs backupdir).isNone then os_Mkdir fs backupdir o.mkdirFails else fs
    let name := env.DetermineEscapePath backupdir b.AbsPath
    if (os_Stat fs1 name).isNone then
      let r := b.overwriteFile env fs1 name o.write
      match r.2 with
      | none => ({ b with requestedBackup := false }, r.1, none)
      | some e => (b, r.1, some e)
    else
      let tmp := AppendBackupSuffix name
      let r := b.overwriteFile env fs1 tmp o.write
      match r.2 with
      | some e => (b, os_Remove r.1 tmp o.removeFails, some e)
      | none =>
        let r2 := os_Rename r.1 tmp name o.rename
        match r2.2 with
        | some e => (b, os_Remove r2.1 tmp o.removeFails, some e)
        | none => ({ b with requestedBackup := false }, r2.1, none)

/-- RemoveBackup removes any backup file associated with this buffer.
`removeFails` is the outcome of its `os.Remove`. -/
def Buffer.RemoveBackup (env : Env) (b : Buffer) (fs : FS) (removeFails : Bool) : FS :=
  if !b.Settings.backup || b.keepBackup || b.Path = "" || b.BufType != BufType.BTDefault then
    fs
  else
    let f := env.DetermineEscapePath (b.backupDir env) b.AbsPath
    os_Remove fs f removeFails

/-- The conversion `uint64(fsize)` of an `int64`. -/
def toUint64 (fsize : Int) : Nat := (fsize % 2 ^ 64).toNat

/-- ApplyBackup applies the corresponding backup file to this buffer (if one
exists).  `choice` is what `screen.TermPrompt` returns if it is called: the
index of the chosen option among `r, i, a, recover, ignore, abort`.  Go's `%`
truncates towards zero (`Int.tmod`).  `removeFails` is the outcome of the
`os.Remove` of the ignore branch.  Returns the buffer, the filesystem and the
two booleans. -/
def Buffer.ApplyBackup (env : Env) (b : Buffer) (fs : FS) (fsize : Int) (choice : Int)
    (removeFails : Bool) : Buffer × FS × Bool × Bool :=
  if b.Settings.backup && !b.Settings.permbackup && decide (b.Path.length > 0)
      && b.BufType == BufType.BTDefault then
    let backupfile := env.DetermineEscapePath (b.backupDir env) b.AbsPath
    match os_Stat fs backupfile with
    | none => (b, fs, false, true)
    | some _info =>
      match os_Open fs backupfile with
      | Except.error _ => (b, fs, false, true)
      | Except.ok backup =>
        if Int.tmod choice 3 = 0 then
          ({ b with LineArray := env.NewLineArray (toUint64 fsize) FileFormat.FFAuto backup,
                    isModified := true }, fs, true, true)
        else if Int.tmod choice 3 = 1 then
          (b, os_Remove fs backupfile removeFails, false, true)
        else if Int.tmod choice 3 = 2 then
          (b, fs, false, false)
        else
          (b, fs, false, true)
  else
    (b, fs, false, true)

/-! ## serialize.go -/

/-- The name of the buffer's session file,
`util.DetermineEscapePath(filepath.Join(config.ConfigDir, "buffers"), b.AbsPath)`. -/
def Buffer.sessionName (env : Env) (b : Buffer) : String :=
  env.DetermineEscapePath (env.Join env.ConfigDir "buffers") b.AbsPath

/-- Serialize serializes the buffer to config.ConfigDir/buffers.  `fault` is
the outcome of the `util.SafeWrite`.  Returns the filesystem afterwards and the
error. -/
def Buffer.Serialize (env : Env) (b : Buffer) (fs : FS) (fault : Option String) :
    FS × Option String :=
  if !b.Settings.savecursor && !b.Settings.saveundo then
    (fs, none)
  else if b.Path = "" then
    (fs, none)
  else
    match env.gobEncode ⟨b.EventHandler, (env.GetActiveCursor b).Loc, b.ModTime⟩ with
    | Except.error e => (fs, some e)
    | Except.ok buf =>
      let name := env.DetermineEscapePath (env.Join env.ConfigDir "buffers") b.AbsPath
      SafeWrite fs name buf true fault

/-- The guidance `Unserialize` appends to a decode error. -/
def unserializeHint : String :=
  "\nYou may want to remove the files in ~/.config/micro/buffers (these files\nstore the information for the 'saveundo' and 'savecursor' options) if\nthis problem persists.\nThis may be caused by upgrading to version 2.0, and removing the 'buffers'\ndirectory will reset the cursor and undo history and solve the problem."

/-- Unserialize loads the buffer info from config.ConfigDir/buffers.  Returns
the buffer afterwards and the error. -/
def Buffer.Unserialize (env : Env) (b : Buffer) (fs : FS) : Buffer × Option String :=
  if b.Path = "" then
    (b, none)
  else
    match os_Open fs (env.DetermineEscapePath (env.Join env.ConfigDir "buffers") b.AbsPath) with
    | Except.error _ => (b, none)
    | Except.ok file =>
      match env.gobDecode file with
      | Except.error err => (b, some (err ++ unserializeHint))
      | Except.ok buffer =>
        let b1 := if b.Settings.savecursor then { b with StartCursor := buffer.Cursor } else b
        let b2 :=
          if b1.Settings.saveundo then
            if b1.ModTime = buffer.ModTime then
              { b1 with EventHandler :=
                  { buffer.EventHandler with cursors := b1.cursors, buf := b1.SharedBuffer } }
            else b1
          else b1
        (b2, none)

/-! ## Sample values

A concrete environment, buffer and filesystem on which the definitions can be
evaluated. -/

/-- A sample encoding of an integer as a sign and a magnitude. -/
def sampleEncInt (x : Int) : List Nat := [if x < 0 then 1 else 0, x.natAbs]

/-- Inverse of `sampleEncInt`. -/
def sampleDecInt (s a : Nat) : Int := if s = 0 then Int.ofNat a else -Int.ofNat a

/-- A sample environment: names are `dir/escaped-path`, an envelope is encoded
as its numbers followed by the history bytes (the references `buf` and
`cursors` are not encoded). -/
def sampleEnv : Env where
  ConfigDir := "/cfg"
  Join := fun a b => a ++ "/" ++ b
  ReplaceHome := fun s => (s, none)
  DetermineEscapePath := fun d p =>
    d ++ "/" ++ String.mk (p.data.map (fun c => if c = '/' then '%' else c))
  GetActiveCursor := fun b => b.cursors.headD ⟨⟨0, 0⟩, 0⟩
  content := fun b => b.LineArray.lines.flatten
  NewLineArray := fun _ _ r =>
    match r with
    | Except.ok d => ⟨[d]⟩
    | Except.error _ => ⟨[]⟩
  gobEncode := fun e =>
    Except.ok (sampleEncInt e.Cursor.X ++ sampleEncInt e.Cursor.Y ++ [e.ModTime.wall]
      ++ sampleEncInt e.ModTime.ext ++ [e.ModTime.loc] ++ e.EventHandler.history)
  gobDecode := fun r =>
    match r with
    | Except.ok (sx :: x :: sy :: y :: w :: st :: t :: l :: h) =>
      Except.ok ⟨⟨0, [], h⟩, ⟨sampleDecInt sx x, sampleDecInt sy y⟩, ⟨w, sampleDecInt st t, l⟩⟩
    | Except.ok _ => Except.error "unexpected EOF"
    | Except.error e => Except.error e

/-- An ordinary buffer for `/home/u/a.txt` with every feature enabled and a
backup request pending. -/
def sampleBuffer : Buffer where
  addr := 1
  SharedBuffer := 2
  Path := "a.txt"
  AbsPath := "/home/u/a.txt"
  BufType := BufType.BTDefault
  ModTime := ⟨5, 7, 1⟩
  Settings := ⟨true, false, "", true, true⟩
  LineArray := ⟨[[110, 101, 119]]⟩
  isModified := false
  EventHandler := ⟨2, [⟨⟨3, 4⟩, 0⟩], [9, 9]⟩
  cursors := [⟨⟨3, 4⟩, 0⟩]
  StartCursor := ⟨0, 0⟩
  requestedBackup := true
  forceKeepBackup := false

/-- The name of the sample buffer's backup file under `sampleEnv`. -/
def sampleBackupName : String := "/cfg/backups/%home%u%a.txt"

/-- The name of the sample buffer's session file under `sampleEnv`. -/
def sampleSessionName : String := "/cfg/buffers/%home%u%a.txt"

/-- The backup file in `sampleFS`. -/
def sampleOldBackup : File := ⟨[111, 108, 100], true⟩

/-- A filesystem with the backup directory and an older backup of the sample
buffer. -/
def sampleFS : FS := fun p =>
  if p = "/cfg/backups" then some Node.dir
  else if p = sampleBackupName then some (Node.file sampleOldBackup)
  else none

/-- A temporary file left behind by an earlier run. -/
def sampleLeftover : File := ⟨[116, 109, 112], true⟩

/-- The filesystem `sampleFS` with a leftover temporary file next to the older
backup, as in a backup directory written by an earlier run under another
user: the files can be read, the directory cannot be modified. -/
def sampleLeftoverFS : FS := fun p =>
  if p = "/cfg/backups/%home%u%a.txt.micro-backup" then some (Node.file sampleLeftover)
  else sampleFS p

/-- A session envelope saved when the file had another modification time
(`wall = 6`), with cursor `(10, 2)` and history `[8, 8]`, as `sampleEnv`
encodes it. -/
def sampleStaleBytes : Bytes := [0, 10, 0, 2, 6, 0, 7, 1, 8, 8]

/-- The envelope `sampleEnv` decodes from `sampleStaleBytes`. -/
def sampleStaleEnvelope : SerializedBuffer := ⟨⟨0, [], [8, 8]⟩, ⟨10, 2⟩, ⟨6, 7, 1⟩⟩

/-- A filesystem holding the stale session file of the sample buffer. -/
def sampleStaleFS : FS := fun p =>
  if p = sampleSessionName then some (Node.file ⟨sampleStaleBytes, true⟩) else sampleFS p

/-- A filesystem holding a truncated session file of the sample buffer. -/
def sampleCorruptFS : FS := fun p =>
  if p = sampleSessionName then some (Node.file ⟨[1, 2], true⟩) else sampleFS p

/-- The sample file opened in a later session: same path, timestamp and
settings, a fresh history and a cursor at the origin. -/
def sampleReopened : Buffer :=
  { sampleBuffer with
    addr := 11
    SharedBuffer := 12
    EventHandler := ⟨12, [⟨⟨0, 0⟩, 0⟩], []⟩
    cursors := [⟨⟨0, 0⟩, 0⟩]
    requestedBackup := false }

/-! ## Facts about the filesystem operations -/

theorem FS.set_same (fs : FS) (p : String) (n : Option Node) : (fs.set p n) p = n := by
  simp [FS.set]

theorem FS.set_other (fs : FS) (p q : String) (n : Option Node) (h : q ≠ p) :
    (fs.set p n) q = fs q := by
  simp [FS.set, h]

theorem os_Remove_same (fs : FS) (p : String) : (os_Remove fs p false) p = none := by
  unfold os_Remove
  cases h : fs p with
  | none => simp [h]
  | some n => simp [FS.set]

theorem os_Remove_other (fs : FS) (p q : String) (fails : Bool) (h : q ≠ p) :
    (os_Remove fs p fails) q = fs q := by
  unfold os_Remove
  cases fails with
  | true => rfl
  | false =>
    cases h1 : fs p with
    | none => rfl
    | some n => simp [FS.set, h]

theorem os_Remove_failed (fs : FS) (p : String) : os_Remove fs p true = fs := by
  simp [os_Remove]

theorem os_Remove_missing (fs : FS) (p : String) (fails : Bool) (h : fs p = none) :
    os_Remove fs p fails = fs := by
  unfold os_Remove
  cases fails <;> simp [h]

theorem os_Mkdir_of_present (fs : FS) (p q : String) (fails : Bool) (h : fs q ≠ none) :
    (os_Mkdir fs p fails) q = fs q := by
  unfold os_Mkdir
  cases fails with
  | true => simp
  | false =>
    cases h1 : fs p with
    | none =>
      have hq : q ≠ p := by
        intro e
        exact h (e ▸ h1)
      simp [FS.set, hq]
    | some n => simp

theorem AppendBackupSuffix_ne (p : String) : AppendBackupSuffix p ≠ p := by
  intro h
  have h1 := congrArg String.data h
  rw [AppendBackupSuffix, String.data_append, List.append_right_eq_self] at h1
  exact absurd h1 (by decide)

/-! ## Backup -/

/-- C5: for a buffer with backup disabled in its settings, or an empty path, or
a kind other than the ordinary one, and for every filesystem state and every
outcome of the filesystem calls, `Backup` returns no error and the filesystem
(and the buffer) after the call is the one before it. -/
theorem Backup_ineligible_is_noop (env : Env) (b : Buffer) (fs : FS) (o : BackupFaults)
    (h : b.Settings.backup = false ∨ b.Path = "" ∨ b.BufType ≠ BufType.BTDefault) :
    b.Backup env fs o = (b, fs, none) := by
  unfold Buffer.Backup
  rcases h with h | h | h
  · simp [h]
  · simp [h]
  · simp [h]

/-- C5 at a sample input: the sample buffer with backup switched off. -/
theorem Backup_ineligible_is_noop_witness :
    ({ sampleBuffer with Settings := ⟨false, false, "", true, true⟩ } : Buffer).Backup
        sampleEnv sampleFS ⟨false, WriteOutcome.ok, none, false⟩
      = ({ sampleBuffer with Settings := ⟨false, false, "", true, true⟩ }, sampleFS, none) :=
  Backup_ineligible_is_noop sampleEnv _ sampleFS _ (Or.inl rfl)

/-- C8: for a buffer eligible for backup (backup enabled, non-empty path,
ordinary kind), every filesystem state and every outcome of the filesystem
calls (so on the first-write path and on the replace path alike): if `Backup`
returns no error the debounce flag `requestedBackup` is clear afterwards, and
if it returns an error the flag has the value it had before the call. -/
theorem Backup_debounce_flag (env : Env) (b : Buffer) (fs : FS) (o : BackupFaults)
    (hb : b.Settings.backup = true) (hp : b.Path ≠ "") (ht : b.BufType = BufType.BTDefault) :
    ((b.Backup env fs o).2.2 = none → (b.Backup env fs o).1.requestedBackup = false) ∧
    ((b.Backup env fs o).2.2 ≠ none →
      (b.Backup env fs o).1.requestedBackup = b.requestedBackup) := by
  unfold Buffer.Backup
  simp only [hb, hp, ht, Bool.not_true, bne_self_eq_false, Bool.or_false, decide_False,
    Bool.false_eq_true, if_false]
  split_ifs <;> (repeat' split) <;> simp_all

/-- C8 at a sample input: replacing the older backup of the sample buffer fails
at the rename. -/
theorem Backup_debounce_flag_witness :
    (sampleBuffer.Settings.backup = true ∧ sampleBuffer.Path ≠ ""
      ∧ sampleBuffer.BufType = BufType.BTDefault) ∧
    (((sampleBuffer.Backup sampleEnv sampleFS ⟨false, WriteOutcome.ok, some "EXDEV", false⟩).2.2 = none →
      (sampleBuffer.Backup sampleEnv sampleFS
        ⟨false, WriteOutcome.ok, some "EXDEV", false⟩).1.requestedBackup = false) ∧
    ((sampleBuffer.Backup sampleEnv sampleFS ⟨false, WriteOutcome.ok, some "EXDEV", false⟩).2.2 ≠ none →
      (sampleBuffer.Backup sampleEnv sampleFS
        ⟨false, WriteOutcome.ok, some "EXDEV", false⟩).1.requestedBackup
        = sampleBuffer.requestedBackup)) :=
  ⟨by decide, Backup_debounce_flag sampleEnv sampleBuffer sampleFS
    ⟨false, WriteOutcome.ok, some "EXDEV", false⟩ (by decide) (by decide) (by decide)⟩

/-- On an eligible buffer whose backup name is taken, `Backup` goes through the
temporary file: the shape of its result, with the filesystem `fs1` it works on
after the directory check. -/
theorem Backup_replace_path (env : Env) (b : Buffer) (fs : FS) (o : BackupFaults) (n : Node)
    (hb : b.Settings.backup = true) (hp : b.Path ≠ "") (ht : b.BufType = BufType.BTDefault)
    (hn : fs (b.backupName env) = some n) :
    ∃ fs1 : FS, fs1 (b.backupName env) = some n ∧
      b.Backup env fs o =
        (match (b.overwriteFile env fs1 (AppendBackupSuffix (b.backupName env)) o.write).2 with
        | some e => (b, os_Remove (b.overwriteFile env fs1
            (AppendBackupSuffix (b.backupName env)) o.write).1
            (AppendBackupSuffix (b.backupName env)) o.removeFails, some e)
        | none =>
          match (os_Rename (b.overwriteFile env fs1
              (AppendBackupSuffix (b.backupName env)) o.write).1
              (AppendBackupSuffix (b.backupName env)) (b.backupName env) o.rename).2 with
          | some e => (b, os_Remove (os_Rename (b.overwriteFile env fs1
              (AppendBackupSuffix (b.backupName env)) o.write).1
              (AppendBackupSuffix (b.backupName env)) (b.backupName env) o.rename).1
              (AppendBackupSuffix (b.backupName env)) o.removeFails, some e)
          | none => ({ b with requestedBackup := false }, (os_Rename (b.overwriteFile env fs1
              (AppendBackupSuffix (b.backupName env)) o.write).1
              (AppendBackupSuffix (b.backupName env)) (b.backupName env) o.rename).1, none)) := by
  have h1 : (if (os_Stat fs (b.backupDir env)).isNone
      then os_Mkdir fs (b.backupDir env) o.mkdirFails else fs) (b.backupName env) = some n := by
    split_ifs
    · rw [os_Mkdir_of_present fs _ _ _ (by simp [hn]), hn]
    · exact hn
  refine ⟨_, h1, ?_⟩
  unfold Buffer.Backup
  simp only [hb, hp, ht, Bool.not_true, bne_self_eq_false, Bool.or_false, decide_False,
    Bool.false_eq_true, if_false]
  unfold Buffer.backupName at h1 ⊢
  simp only [os_Stat] at h1 ⊢
  simp only [h1, Option.isNone_some, Bool.false_eq_true, if_false]

/-- C1 fails as stated: the sample buffer is eligible and has an older backup;
a temporary file is left over from an earlier run in a backup directory the
process may not modify.  Opening the temporary file for writing fails, and so
does the `os.Remove` whose error `Backup` discards: `Backup` returns the write
error and the temporary file is still there. -/
theorem Backup_failed_remove_leaves_temp_file :
    (sampleBuffer.Settings.backup = true ∧ sampleBuffer.Path ≠ ""
      ∧ sampleBuffer.BufType = BufType.BTDefault)
    ∧ sampleLeftoverFS (sampleBuffer.backupName sampleEnv) = some (Node.file sampleOldBackup)
    ∧ (sampleBuffer.Backup sampleEnv sampleLeftoverFS
        ⟨false, WriteOutcome.failed "permission denied" none, none, true⟩).2.2
        = some "permission denied"
    ∧ ((sampleBuffer.Backup sampleEnv sampleLeftoverFS
        ⟨false, WriteOutcome.failed "permission denied" none, none, true⟩).2.1).fileAt
        (AppendBackupSuffix (sampleBuffer.backupName sampleEnv)) = some sampleLeftover := by
  decide

/-- C1, amended: for a buffer eligible for backup (backup enabled, non-empty
path, ordinary kind) and a filesystem in which a backup file `f` already exists
at the buffer's backup name: if writing the temporary file fails with `e`, or
the write succeeds and the rename fails with `e`, then `Backup` returns `e` and
the backup name still names the file `f` (the same bytes), whether or not the
removal of the temporary file succeeds; and when that `os.Remove` succeeds,
nothing is at the temporary name afterwards. -/
theorem Backup_failure_keeps_old_backup (env : Env) (b : Buffer) (fs : FS) (o : BackupFaults)
    (f : File) (e : String)
    (hb : b.Settings.backup = true) (hp : b.Path ≠ "") (ht : b.BufType = BufType.BTDefault)
    (hf : fs (b.backupName env) = some (Node.file f))
    (hfail : (∃ torn, o.write = WriteOutcome.failed e torn)
      ∨ (o.write = WriteOutcome.ok ∧ o.rename = some e)) :
    (b.Backup env fs o).2.2 = some e
    ∧ (b.Backup env fs o).2.1 (b.backupName env) = some (Node.file f)
    ∧ (o.removeFails = false →
        (b.Backup env fs o).2.1 (AppendBackupSuffix (b.backupName env)) = none) := by
  obtain ⟨fs1, h1, hB⟩ := Backup_replace_path env b fs o (Node.file f) hb hp ht hf
  have hne : b.backupName env ≠ AppendBackupSuffix (b.backupName env) :=
    fun h => AppendBackupSuffix_ne _ h.symm
  rw [hB]
  rcases hfail with ⟨torn, hw⟩ | ⟨hw, hr⟩
  · cases torn with
    | none =>
      simp only [hw, Buffer.overwriteFile]
      refine ⟨trivial, by rw [os_Remove_other _ _ _ _ hne, h1], ?_⟩
      intro hrm
      rw [hrm]
      exact os_Remove_same _ _
    | some d =>
      simp only [hw, Buffer.overwriteFile]
      refine ⟨trivial, ?_, ?_⟩
      · rw [os_Remove_other _ _ _ _ hne, FS.set_other _ _ _ _ hne, h1]
      · intro hrm
        rw [hrm]
        exact os_Remove_same _ _
  · simp only [hw, hr, Buffer.overwriteFile, os_Rename]
    refine ⟨trivial, ?_, ?_⟩
    · rw [os_Remove_other _ _ _ _ hne, FS.set_other _ _ _ _ hne, h1]
    · intro hrm
      rw [hrm]
      exact os_Remove_same _ _

/-- C1, amended, at a sample input: the write of the temporary file of the
sample buffer fails half way, over the older backup in `sampleFS`, and the
removal succeeds. -/
theorem Backup_failure_keeps_old_backup_witness :
    (sampleBuffer.Backup sampleEnv sampleFS
        ⟨false, WriteOutcome.failed "ENOSPC" (some [110]), none, false⟩).2.2 = some "ENOSPC"
    ∧ (sampleBuffer.Backup sampleEnv sampleFS
        ⟨false, WriteOutcome.failed "ENOSPC" (some [110]), none, false⟩).2.1
        (sampleBuffer.backupName sampleEnv) = some (Node.file sampleOldBackup)
    ∧ (sampleBuffer.Backup sampleEnv sampleFS
        ⟨false, WriteOutcome.failed "ENOSPC" (some [110]), none, false⟩).2.1
        (AppendBackupSuffix (sampleBuffer.backupName sampleEnv)) = none :=
  ⟨(Backup_failure_keeps_old_backup sampleEnv sampleBuffer sampleFS
      ⟨false, WriteOutcome.failed "ENOSPC" (some [110]), none, false⟩ sampleOldBackup "ENOSPC"
      (by decide) (by decide) (by decide) (by decide) (Or.inl ⟨some [110], rfl⟩)).1,
   (Backup_failure_keeps_old_backup sampleEnv sampleBuffer sampleFS
      ⟨false, WriteOutcome.failed "ENOSPC" (some [110]), none, false⟩ sampleOldBackup "ENOSPC"
      (by decide) (by decide) (by decide) (by decide) (Or.inl ⟨some [110], rfl⟩)).2.1,
   (Backup_failure_keeps_old_backup sampleEnv sampleBuffer sampleFS
      ⟨false, WriteOutcome.failed "ENOSPC" (some [110]), none, false⟩ sampleOldBackup "ENOSPC"
      (by decide) (by decide) (by decide) (by decide) (Or.inl ⟨some [110], rfl⟩)).2.2 rfl⟩

/-! ## RemoveBackup -/

/-- C7 fails as stated: the sample buffer meets every condition for removal
(backup enabled, ordinary kind, non-empty path, no keep-backup override, no
`permbackup`), the `os.Remove` fails (the backup directory may not be
modified) and its error is discarded: the backup file is still there. -/
theorem RemoveBackup_failed_remove_keeps_file :
    (sampleBuffer.Settings.backup = true ∧ sampleBuffer.BufType = BufType.BTDefault
      ∧ sampleBuffer.Path ≠ "" ∧ sampleBuffer.forceKeepBackup = false
      ∧ sampleBuffer.Settings.permbackup = false)
    ∧ (sampleBuffer.RemoveBackup sampleEnv sampleFS true).fileAt
        (sampleBuffer.backupName sampleEnv) = some sampleOldBackup := by
  decide

/-- C7, amended: when backup is enabled, the kind is ordinary, the path is
non-empty and neither the per-buffer keep-backup override nor `permbackup` is
set, `RemoveBackup` calls `os.Remove` on the buffer's backup name: if the
removal succeeds nothing is at that name afterwards and every other path keeps
what it named, and if it fails the error is discarded and the filesystem is
unchanged; in every other case, in particular whenever the override or
`permbackup` is set, the filesystem is left unchanged; and when nothing is at
the backup name the call changes nothing (a missing file is not an error). -/
theorem RemoveBackup_spec (env : Env) (b : Buffer) (fs : FS) (removeFails : Bool) :
    ((b.Settings.backup = true ∧ b.BufType = BufType.BTDefault ∧ b.Path ≠ ""
        ∧ b.forceKeepBackup = false ∧ b.Settings.permbackup = false) →
      (removeFails = false →
        (b.RemoveBackup env fs removeFails) (b.backupName env) = none
        ∧ ∀ q, q ≠ b.backupName env → (b.RemoveBackup env fs removeFails) q = fs q)
      ∧ (removeFails = true → b.RemoveBackup env fs removeFails = fs))
    ∧ (¬ (b.Settings.backup = true ∧ b.BufType = BufType.BTDefault ∧ b.Path ≠ ""
        ∧ b.forceKeepBackup = false ∧ b.Settings.permbackup = false) →
      b.RemoveBackup env fs removeFails = fs)
    ∧ (fs (b.backupName env) = none → b.RemoveBackup env fs removeFails = fs) := by
  refine ⟨?_, ?_, ?_⟩
  · rintro ⟨hb, ht, hp, hk, hpb⟩
    have hR : b.RemoveBackup env fs removeFails
        = os_Remove fs (b.backupName env) removeFails := by
      simp [Buffer.RemoveBackup, Buffer.keepBackup, Buffer.backupName, hb, ht, hp, hk, hpb]
    rw [hR]
    constructor
    · intro hrm
      rw [hrm]
      exact ⟨os_Remove_same _ _, fun q hq => os_Remove_other _ _ _ _ hq⟩
    · intro hrm
      rw [hrm]
      exact os_Remove_failed _ _
  · intro h
    unfold Buffer.RemoveBackup Buffer.keepBackup
    split_ifs with h1
    · rfl
    · exfalso
      apply h
      simp only [Bool.or_eq_true, Bool.not_eq_true', bne_iff_ne, ne_eq, decide_eq_true_eq,
        not_or, Bool.not_eq_false, Bool.not_eq_true, Decidable.not_not] at h1
      obtain ⟨⟨⟨hb, hk, hpb⟩, hp⟩, ht⟩ := h1
      exact ⟨hb, ht, hp, hk, hpb⟩
  · intro h
    unfold Buffer.RemoveBackup
    split_ifs
    · rfl
    · exact os_Remove_missing _ _ _ h

/-- C7, amended, at a sample input: the removal succeeds, the older backup of
the sample buffer is deleted and the backup directory stays. -/
theorem RemoveBackup_spec_witness :
    (sampleBuffer.RemoveBackup sampleEnv sampleFS false) (sampleBuffer.backupName sampleEnv) = none
    ∧ (sampleBuffer.RemoveBackup sampleEnv sampleFS false) "/cfg/backups"
        = sampleFS "/cfg/backups" :=
  ⟨(((RemoveBackup_spec sampleEnv sampleBuffer sampleFS false).1 (by decide)).1 rfl).1,
   (((RemoveBackup_spec sampleEnv sampleBuffer sampleFS false).1 (by decide)).1 rfl).2
     "/cfg/backups" (by decide)⟩

/-! ## ApplyBackup -/

theorem path_length_pos_of_ne_empty (s : String) (h : s ≠ "") : 0 < s.length := by
  cases s with
  | mk l =>
    cases l with
    | nil => exact absurd rfl h
    | cons c cs => simp [String.length]

/-- C2 fails as stated: recovery activates on the sample buffer, its backup
file exists and can be opened, and the user answers `ignore` (index 4); the
`os.Remove` fails (the backup directory may not be modified) and its error is
discarded: `ApplyBackup` returns `(false, true)` and the backup file is still
there. -/
theorem ApplyBackup_ignore_failed_remove_keeps_file :
    (sampleBuffer.Settings.backup = true ∧ sampleBuffer.Settings.permbackup = false
      ∧ sampleBuffer.Path ≠ "" ∧ sampleBuffer.BufType = BufType.BTDefault)
    ∧ sampleFS (sampleBuffer.backupName sampleEnv) = some (Node.file sampleOldBackup)
    ∧ sampleOldBackup.readable = true
    ∧ (sampleBuffer.ApplyBackup sampleEnv sampleFS 3 4 true).2.2 = (false, true)
    ∧ ((sampleBuffer.ApplyBackup sampleEnv sampleFS 3 4 true).2.1).fileAt
        (sampleBuffer.backupName sampleEnv) = some sampleOldBackup := by
  decide

/-- C2, amended: for a buffer on which recovery activates (backup enabled,
`permbackup` disabled, non-empty path, ordinary kind) whose backup file `f`
exists and can be opened, and a prompt answer `choice` among the indices of
`r, i, a, recover, ignore, abort`: on abort (2 or 5) `ApplyBackup` returns
`(false, false)` and the filesystem and buffer are unchanged; on ignore (1 or
4) it returns `(false, true)` with the buffer unchanged, and nothing is at the
backup name afterwards when the `os.Remove` succeeds, while the filesystem is
unchanged when it fails (the error is discarded); on recover (0 or 3) it
returns `(true, true)`, the content is the line array loaded from the bytes of
`f`, the buffer is marked modified and the filesystem is unchanged. -/
theorem ApplyBackup_choices (env : Env) (b : Buffer) (fs : FS) (fsize choice : Int) (f : File)
    (removeFails : Bool)
    (hb : b.Settings.backup = true) (hpb : b.Settings.permbackup = false) (hp : b.Path ≠ "")
    (ht : b.BufType = BufType.BTDefault)
    (hf : fs (b.backupName env) = some (Node.file f)) (hr : f.readable = true) :
    ((choice = 2 ∨ choice = 5) →
        b.ApplyBackup env fs fsize choice removeFails = (b, fs, false, false))
    ∧ ((choice = 1 ∨ choice = 4) →
        (b.ApplyBackup env fs fsize choice removeFails).2.2 = (false, true)
        ∧ (b.ApplyBackup env fs fsize choice removeFails).1 = b
        ∧ (removeFails = false →
            (b.ApplyBackup env fs fsize choice removeFails).2.1 (b.backupName env) = none)
        ∧ (removeFails = true →
            (b.ApplyBackup env fs fsize choice removeFails).2.1 = fs))
    ∧ ((choice = 0 ∨ choice = 3) →
        (b.ApplyBackup env fs fsize choice removeFails).2.2 = (true, true)
        ∧ (b.ApplyBackup env fs fsize choice removeFails).1.LineArray
            = env.NewLineArray (toUint64 fsize) FileFormat.FFAuto (Except.ok f.data)
        ∧ (b.ApplyBackup env fs fsize choice removeFails).1.isModified = true
        ∧ (b.ApplyBackup env fs fsize choice removeFails).2.1 = fs) := by
  have hlen : 0 < b.Path.length := path_length_pos_of_ne_empty _ hp
  have hA : b.ApplyBackup env fs fsize choice removeFails =
      (if Int.tmod choice 3 = 0 then
        ({ b with LineArray := env.NewLineArray (toUint64 fsize) FileFormat.FFAuto
                    (Except.ok f.data),
                  isModified := true }, fs, true, true)
      else if Int.tmod choice 3 = 1 then
        (b, os_Remove fs (b.backupName env) removeFails, false, true)
      else if Int.tmod choice 3 = 2 then
        (b, fs, false, false)
      else
        (b, fs, false, true)) := by
    unfold Buffer.backupName at hf ⊢
    simp [Buffer.ApplyBackup, hb, hpb, hlen, ht, os_Stat, os_Open, hf, hr]
  rw [hA]
  refine ⟨?_, ?_, ?_⟩
  · rintro (h | h) <;> subst h <;>
      rw [if_neg (by decide), if_neg (by decide), if_pos (by decide)]
  · have hig : (b, os_Remove fs (b.backupName env) removeFails, false, true).2.2 = (false, true)
        ∧ (b, os_Remove fs (b.backupName env) removeFails, false, true).1 = b
        ∧ (removeFails = false →
            (b, os_Remove fs (b.backupName env) removeFails, false, true).2.1
              (b.backupName env) = none)
        ∧ (removeFails = true →
            (b, os_Remove fs (b.backupName env) removeFails, false, true).2.1 = fs) := by
      refine ⟨rfl, rfl, ?_, ?_⟩
      · intro hrm
        subst hrm
        exact os_Remove_same fs (b.backupName env)
      · intro hrm
        subst hrm
        exact os_Remove_failed fs (b.backupName env)
    rintro (h | h) <;> subst h <;> rw [if_neg (by decide), if_pos (by decide)] <;> exact hig
  · rintro (h | h) <;> subst h <;> rw [if_pos (by decide)] <;> exact ⟨rfl, rfl, rfl, rfl⟩

/-- C2, amended, at a sample input: the user answers `ignore` (index 4) for
the older backup of the sample buffer and the removal succeeds. -/
theorem ApplyBackup_choices_witness :
    (sampleBuffer.ApplyBackup sampleEnv sampleFS 3 4 false).2.2 = (false, true)
    ∧ (sampleBuffer.ApplyBackup sampleEnv sampleFS 3 4 false).1 = sampleBuffer
    ∧ (sampleBuffer.ApplyBackup sampleEnv sampleFS 3 4 false).2.1
        (sampleBuffer.backupName sampleEnv) = none :=
  ⟨((ApplyBackup_choices sampleEnv sampleBuffer sampleFS 3 4 sampleOldBackup false
      (by decide) (by decide) (by decide) (by decide) (by decide) (by decide)).2.1
      (Or.inr rfl)).1,
   ((ApplyBackup_choices sampleEnv sampleBuffer sampleFS 3 4 sampleOldBackup false
      (by decide) (by decide) (by decide) (by decide) (by decide) (by decide)).2.1
      (Or.inr rfl)).2.1,
   ((ApplyBackup_choices sampleEnv sampleBuffer sampleFS 3 4 sampleOldBackup false
      (by decide) (by decide) (by decide) (by decide) (by decide) (by decide)).2.1
      (Or.inr rfl)).2.2.1 rfl⟩

/-! ## RequestBackup -/

/-- C6: debounce.  For every queue and every buffer with no request in the
queue, two consecutive `RequestBackup` calls for that buffer, with no drain in
between, leave at most one request for it in the queue; and a `RequestBackup`
on a buffer whose debounce flag is already set leaves the queue (and the
buffer) unchanged. -/
theorem RequestBackup_debounce (b : Buffer) (q : List Nat) :
    (b.addr ∉ q →
      (((b.RequestBackup q).1.RequestBackup (b.RequestBackup q).2).2.count b.addr ≤ 1))
    ∧ (b.requestedBackup = true → b.RequestBackup q = (b, q)) := by
  constructor
  · intro hq
    have h0 : q.count b.addr = 0 := List.count_eq_zero_of_not_mem hq
    cases hflag : b.requestedBackup with
    | true => simp [Buffer.RequestBackup, hflag, h0]
    | false =>
      simp only [Buffer.RequestBackup, hflag, trySend, Bool.not_false, Bool.not_true, if_true,
        Bool.false_eq_true, if_false]
      split_ifs
      · simp [List.count_append, h0]
      · simp [h0]
  · intro h
    simp [Buffer.RequestBackup, h]

/-- C6 at a sample input: two requests for a buffer whose flag is clear, on a
queue holding two other buffers. -/
theorem RequestBackup_debounce_witness :
    ((({ sampleBuffer with requestedBackup := false } : Buffer).RequestBackup [7, 8]).1.RequestBackup
      (({ sampleBuffer with requestedBackup := false } : Buffer).RequestBackup [7, 8]).2).2.count 1
      ≤ 1 :=
  (RequestBackup_debounce { sampleBuffer with requestedBackup := false } [7, 8]).1 (by decide)

/-- C10: for a buffer whose debounce flag is unset and every state of the
request queue (capacity 10), `RequestBackup` (a total function: the send has a
`default` branch) sets the debounce flag and changes nothing else in the
buffer; if the queue holds fewer than 10 requests the buffer is appended at the
tail, and if the queue is full the request is dropped and the queue is
unchanged, the flag being set all the same. -/
theorem RequestBackup_unset_flag (b : Buffer) (q : List Nat) (h : b.requestedBackup = false) :
    (b.RequestBackup q).1 = { b with requestedBackup := true }
    ∧ (q.length < 10 → (b.RequestBackup q).2 = q ++ [b.addr])
    ∧ (10 ≤ q.length → (b.RequestBackup q).2 = q) := by
  refine ⟨?_, ?_, ?_⟩
  · simp [Buffer.RequestBackup, h]
  · intro hl
    simp [Buffer.RequestBackup, h, trySend, backupRequestChanCap, hl]
  · intro hl
    simp [Buffer.RequestBackup, h, trySend, backupRequestChanCap, Nat.not_lt.mpr hl]

/-- C10 at a sample input: a request on a full queue is dropped and the flag is
set. -/
theorem RequestBackup_unset_flag_witness :
    (({ sampleBuffer with requestedBackup := false } : Buffer).RequestBackup
        [0, 2, 3, 4, 5, 6, 7, 8, 9, 10]).1 = sampleBuffer
    ∧ (({ sampleBuffer with requestedBackup := false } : Buffer).RequestBackup
        [0, 2, 3, 4, 5, 6, 7, 8, 9, 10]).2 = [0, 2, 3, 4, 5, 6, 7, 8, 9, 10] :=
  ⟨(RequestBackup_unset_flag { sampleBuffer with requestedBackup := false }
      [0, 2, 3, 4, 5, 6, 7, 8, 9, 10] rfl).1,
   (RequestBackup_unset_flag { sampleBuffer with requestedBackup := false }
      [0, 2, 3, 4, 5, 6, 7, 8, 9, 10] rfl).2.2 (by decide)⟩

/-! ## Unserialize and Serialize -/

/-- The result of `Unserialize` once the session file is open and decoded: no error, the
cursor is adopted under `savecursor`, the history under `saveundo` and equal
timestamps. -/
theorem Unserialize_of_decoded (env : Env) (b : Buffer) (fs : FS) (file : Reader)
    (buffer : SerializedBuffer) (hp : b.Path ≠ "")
    (ho : os_Open fs (b.sessionName env) = Except.ok file)
    (hd : env.gobDecode file = Except.ok buffer) :
    b.Unserialize env fs =
      (if b.Settings.saveundo = true ∧ b.ModTime = buffer.ModTime then
        { b with
          StartCursor := if b.Settings.savecursor then buffer.Cursor else b.StartCursor,
          EventHandler := ⟨b.SharedBuffer, b.cursors, buffer.EventHandler.history⟩ }
      else
        { b with
          StartCursor := if b.Settings.savecursor then buffer.Cursor else b.StartCursor },
      none) := by
  unfold Buffer.sessionName at ho
  unfold Buffer.Unserialize
  simp only [hp, if_false, ho, hd]
  split_ifs <;> first | rfl | simp_all

/-- C3: for every buffer and every successfully decoded session envelope
`buffer`: if the envelope's stored modification timestamp differs from the
buffer's, `Unserialize` leaves the edit history unchanged, whether or not
`saveundo` is enabled; and, whether or not the timestamps are equal, the start
cursor afterwards is the envelope's cursor when `savecursor` is enabled and the
previous start cursor when it is not. -/
theorem Unserialize_stale_history (env : Env) (b : Buffer) (fs : FS) (file : Reader)
    (buffer : SerializedBuffer) (hp : b.Path ≠ "")
    (ho : os_Open fs (b.sessionName env) = Except.ok file)
    (hd : env.gobDecode file = Except.ok buffer) :
    (buffer.ModTime ≠ b.ModTime → (b.Unserialize env fs).1.EventHandler = b.EventHandler)
    ∧ (b.Settings.savecursor = true → (b.Unserialize env fs).1.StartCursor = buffer.Cursor)
    ∧ (b.Settings.savecursor = false → (b.Unserialize env fs).1.StartCursor = b.StartCursor) := by
  rw [Unserialize_of_decoded env b fs file buffer hp ho hd]
  refine ⟨?_, ?_, ?_⟩
  · intro hm
    have hm2 : ¬ (b.Settings.saveundo = true ∧ b.ModTime = buffer.ModTime) :=
      fun h => hm h.2.symm
    simp [hm2]
  · intro hsc
    split_ifs <;> simp_all
  · intro hsc
    split_ifs <;> simp_all

/-- C9: `Unserialize` returns an error if and only if the path is non-empty,
the session file for the buffer's absolute path can be opened, and decoding it
fails; with an empty path or nothing at the session name it returns no error
and leaves the buffer unchanged; and when decoding fails it returns the decode
error followed by the guidance and the buffer (so its start cursor and edit
history) is unchanged. -/
theorem Unserialize_error_iff (env : Env) (b : Buffer) (fs : FS) :
    ((b.Unserialize env fs).2 ≠ none ↔
      (b.Path ≠ "" ∧ ∃ file, os_Open fs (b.sessionName env) = Except.ok file
        ∧ ∃ err, env.gobDecode file = Except.error err))
    ∧ ((b.Path = "" ∨ fs (b.sessionName env) = none) → b.Unserialize env fs = (b, none))
    ∧ ((b.Unserialize env fs).2 ≠ none →
        (b.Unserialize env fs).1.StartCursor = b.StartCursor
        ∧ (b.Unserialize env fs).1.EventHandler = b.EventHandler)
    ∧ (∀ file err, b.Path ≠ "" → os_Open fs (b.sessionName env) = Except.ok file →
        env.gobDecode file = Except.error err →
        b.Unserialize env fs = (b, some (err ++ unserializeHint))) := by
  have key : ∀ file err, b.Path ≠ "" → os_Open fs (b.sessionName env) = Except.ok file →
      env.gobDecode file = Except.error err →
      b.Unserialize env fs = (b, some (err ++ unserializeHint)) := by
    intro file err hp ho hd
    unfold Buffer.sessionName at ho
    unfold Buffer.Unserialize
    simp only [hp, if_false, ho, hd]
  have hcases : b.Unserialize env fs = (b, none) ∨
      (b.Path ≠ "" ∧ ∃ file, os_Open fs (b.sessionName env) = Except.ok file
        ∧ ∃ err, env.gobDecode file = Except.error err) ∨
      (b.Path ≠ "" ∧ (b.Unserialize env fs).2 = none
        ∧ ∃ file, os_Open fs (b.sessionName env) = Except.ok file
        ∧ ∃ buffer, env.gobDecode file = Except.ok buffer) := by
    by_cases hp : b.Path = ""
    · left
      simp [Buffer.Unserialize, hp]
    · cases ho : os_Open fs (b.sessionName env) with
      | error e =>
        left
        unfold Buffer.sessionName at ho
        simp [Buffer.Unserialize, hp, ho]
      | ok file =>
        cases hd : env.gobDecode file with
        | error err => exact Or.inr (Or.inl ⟨hp, file, rfl, err, hd⟩)
        | ok buffer =>
          refine Or.inr (Or.inr ⟨hp, ?_, file, rfl, buffer, hd⟩)
          rw [Unserialize_of_decoded env b fs file buffer hp ho hd]
  refine ⟨⟨?_, ?_⟩, ?_, ?_, key⟩
  · intro herr
    rcases hcases with h | h | h
    · rw [h] at herr
      exact absurd rfl herr
    · exact h
    · exact absurd h.2.1 herr
  · rintro ⟨hp, file, ho, err, hd⟩
    rw [key file err hp ho hd]
    simp
  · rintro (hp | hn)
    · simp [Buffer.Unserialize, hp]
    · by_cases hp : b.Path = ""
      · simp [Buffer.Unserialize, hp]
      · unfold Buffer.sessionName at hn
        simp [Buffer.Unserialize, hp, os_Open, hn]
  · intro herr
    rcases hcases with h | ⟨hp, file, ho, err, hd⟩ | h
    · rw [h] at herr
      exact absurd rfl herr
    · rw [key file err hp ho hd]
      exact ⟨rfl, rfl⟩
    · exact absurd h.2.1 herr

/-- C4: round trip.  For a buffer `b` with a non-empty path and both
`savecursor` and `saveundo` enabled, if `Serialize` succeeds and `Unserialize`
is then run on the resulting filesystem for a buffer `b2` with the same
absolute path, the same modification timestamp and the same two settings (`b`
itself, or the buffer of a later session), then `Unserialize` returns no error,
the start cursor is the active cursor location that was serialized, and the
edit history is the serialized one attached to the live cursors and content
reference of `b2`; assuming the decoder inverts the encoder on the envelope
written (on its cursor, timestamp and history; the two references are not
required to survive the encoding). -/
theorem Serialize_Unserialize_roundtrip (env : Env) (b b2 : Buffer) (fs : FS)
    (fault : Option String)
    (hp : b.Path ≠ "") (hsc : b.Settings.savecursor = true) (hsu : b.Settings.saveundo = true)
    (hser : (b.Serialize env fs fault).2 = none)
    (hinv : ∀ bytes,
      env.gobEncode ⟨b.EventHandler, (env.GetActiveCursor b).Loc, b.ModTime⟩ = Except.ok bytes →
      ∃ e, env.gobDecode (Except.ok bytes) = Except.ok e
        ∧ e.Cursor = (env.GetActiveCursor b).Loc ∧ e.ModTime = b.ModTime
        ∧ e.EventHandler.history = b.EventHandler.history)
    (hp2 : b2.Path ≠ "") (habs : b2.AbsPath = b.AbsPath) (hmt : b2.ModTime = b.ModTime)
    (hsc2 : b2.Settings.savecursor = true) (hsu2 : b2.Settings.saveundo = true) :
    (b2.Unserialize env (b.Serialize env fs fault).1).2 = none
    ∧ (b2.Unserialize env (b.Serialize env fs fault).1).1.StartCursor
        = (env.GetActiveCursor b).Loc
    ∧ (b2.Unserialize env (b.Serialize env fs fault).1).1.EventHandler
        = ⟨b2.SharedBuffer, b2.cursors, b.EventHandler.history⟩ := by
  cases henc : env.gobEncode ⟨b.EventHandler, (env.GetActiveCursor b).Loc, b.ModTime⟩ with
  | error e =>
    simp [Buffer.Serialize, hp, hsc, hsu, henc] at hser
  | ok bytes =>
    cases fault with
    | some e => simp [Buffer.Serialize, hp, hsc, hsu, henc, SafeWrite] at hser
    | none =>
      obtain ⟨e, hdec, hcur, hmod, hhist⟩ := hinv bytes henc
      have hS : (b.Serialize env fs none).1 =
          fs.set (b.sessionName env) (some (Node.file ⟨bytes, true⟩)) := by
        simp [Buffer.Serialize, hp, hsc, hsu, henc, SafeWrite, Buffer.sessionName]
      have hname : b2.sessionName env = b.sessionName env := by
        simp [Buffer.sessionName, habs]
      have ho : os_Open (b.Serialize env fs none).1 (b2.sessionName env)
          = Except.ok (Except.ok bytes) := by
        rw [hS, hname]
        simp [os_Open, FS.set]
      rw [Unserialize_of_decoded env b2 _ _ e hp2 ho hdec]
      simp [hsc2, hsu2, hmt, hmod, hcur, hhist]

/-- C3 at a sample input: the sample buffer (both settings on) meets a session
file saved under another modification time: the cursor is adopted, the history
is not. -/
theorem Unserialize_stale_history_witness :
    (sampleBuffer.Unserialize sampleEnv sampleStaleFS).1.EventHandler = sampleBuffer.EventHandler
    ∧ (sampleBuffer.Unserialize sampleEnv sampleStaleFS).1.StartCursor = ⟨10, 2⟩ :=
  ⟨(Unserialize_stale_history sampleEnv sampleBuffer sampleStaleFS (Except.ok sampleStaleBytes)
      sampleStaleEnvelope (by decide) rfl rfl).1 (by decide),
   (Unserialize_stale_history sampleEnv sampleBuffer sampleStaleFS (Except.ok sampleStaleBytes)
      sampleStaleEnvelope (by decide) rfl rfl).2.1 rfl⟩

/-- C9 at a sample input: a truncated session file makes `Unserialize` return
an error and leaves the start cursor and history of the sample buffer. -/
theorem Unserialize_error_iff_witness :
    (sampleBuffer.Unserialize sampleEnv sampleCorruptFS).2 ≠ none
    ∧ (sampleBuffer.Unserialize sampleEnv sampleCorruptFS).1.StartCursor
        = sampleBuffer.StartCursor
    ∧ (sampleBuffer.Unserialize sampleEnv sampleCorruptFS).1.EventHandler
        = sampleBuffer.EventHandler :=
  ⟨(Unserialize_error_iff sampleEnv sampleBuffer sampleCorruptFS).1.mpr
      ⟨by decide, Except.ok [1, 2], rfl, "unexpected EOF", rfl⟩,
   (Unserialize_error_iff sampleEnv sampleBuffer sampleCorruptFS).2.2.1
      ((Unserialize_error_iff sampleEnv sampleBuffer sampleCorruptFS).1.mpr
        ⟨by decide, Except.ok [1, 2], rfl, "unexpected EOF", rfl⟩)⟩

/-- C4 at a sample input: the sample buffer is serialized and the file is
opened again in a later session. -/
theorem Serialize_Unserialize_roundtrip_witness :
    (sampleReopened.Unserialize sampleEnv (sampleBuffer.Serialize sampleEnv sampleFS none).1).2
        = none
    ∧ (sampleReopened.Unserialize sampleEnv
        (sampleBuffer.Serialize sampleEnv sampleFS none).1).1.StartCursor = ⟨3, 4⟩
    ∧ (sampleReopened.Unserialize sampleEnv
        (sampleBuffer.Serialize sampleEnv sampleFS none).1).1.EventHandler
        = ⟨12, [⟨⟨0, 0⟩, 0⟩], [9, 9]⟩ :=
  Serialize_Unserialize_roundtrip sampleEnv sampleBuffer sampleReopened sampleFS none
    (by decide) rfl rfl (by decide)
    (fun bytes h => Except.ok.inj h ▸ ⟨⟨⟨0, [], [9, 9]⟩, ⟨3, 4⟩, ⟨5, 7, 1⟩⟩, rfl, rfl, rfl, rfl⟩)
    (by decide) rfl rfl rfl rfl
